import Mathlib

/- Verification of the Azure Cosmos DB NoSQL vector store adapter
   (llama_index/vector_stores/azurecosmosnosql/base.py).

   The adapter is embedded shallowly: Python dicts become structures or
   association lists, the external Cosmos client becomes a trace of issued
   store calls plus an explicit container state, and raised Python errors
   become `Except` errors. -/

/-- A JSON-like scalar value: the carrier for metadata entries, embedding
components and pass-through configuration values. -/
inductive Value where
  | str : String → Value
  | num : Int → Value
  | boolean : Bool → Value
  | null : Value
  deriving DecidableEq, Repr

/-- A value stored in one field of a Cosmos document or query row: a string,
an embedding vector, a nested metadata dict, or a plain scalar. -/
inductive DocValue where
  | str : String → DocValue
  | vec : List Value → DocValue
  | dict : List (String × Value) → DocValue
  | val : Value → DocValue
  deriving DecidableEq, Repr

/-- A Cosmos document (also a query result row): an association list of named
fields, mirroring a Python dict with string keys (first binding wins on
lookup; the documents built by the adapter have distinct keys). -/
abbrev DocEntry := List (String × DocValue)

/-- One entry of the vector-embedding policy's `vectorEmbeddings` list
(a Cosmos `path` such as `/embedding`, with its data type, distance
function and dimensionality). Only `path` is read by the adapter. -/
structure VectorEmbedding where
  path : String
  dataType : String
  distanceFunction : String
  dimensions : Int
  deriving DecidableEq, Repr

/-- The caller-supplied vector-embedding policy dict; the adapter reads its
`vectorEmbeddings` key. -/
structure VectorEmbeddingPolicy where
  vectorEmbeddings : List VectorEmbedding
  deriving DecidableEq, Repr

/-- One entry of the indexing policy's `vectorIndexes` list. -/
structure VectorIndex where
  path : String
  indexType : String
  deriving DecidableEq, Repr

/-- The caller-supplied indexing policy dict; the adapter reads its
`vectorIndexes` key, whose value may itself be null (`none`). -/
structure IndexingPolicy where
  vectorIndexes : Option (List VectorIndex)
  deriving DecidableEq, Repr

/-- The caller-supplied `cosmos_container_properties` dict: the adapter reads
`partition_key` by subscript and the remaining keys with `.get` (absent keys
read as `none` and are passed through to the container-creation call). -/
structure ContainerProperties where
  partition_key : Option Value
  default_ttl : Option Value
  offer_throughput : Option Value
  unique_key_policy : Option Value
  conflict_resolution_policy : Option Value
  analytical_storage_ttl : Option Value
  computed_properties : Option Value
  etag : Option Value
  match_condition : Option Value
  session_token : Option Value
  initial_headers : Option Value
  deriving DecidableEq, Repr

/-- The caller-supplied `cosmos_database_properties` dict: every key is read
with `.get` and passed through to the database-creation call. -/
structure DatabaseProperties where
  offer_throughput : Option Value
  session_token : Option Value
  initial_headers : Option Value
  etag : Option Value
  match_condition : Option Value
  deriving DecidableEq, Repr

/-- A raised Python error, by class and message. -/
inductive PyError where
  | valueError : String → PyError
  | typeError : String → PyError
  | attributeError : String → PyError
  | indexError : String → PyError
  | keyError : String → PyError
  | exception : String → PyError
  deriving DecidableEq, Repr

/-- A value bound to a named parameter of a Cosmos SQL query: an integer or
an embedding vector. -/
inductive ParamValue where
  | int : Int → ParamValue
  | vector : List Value → ParamValue
  deriving DecidableEq, Repr

/-- A parameterized Cosmos SQL query as handed to `query_items`. -/
structure CosmosQuery where
  queryText : String
  parameters : List (String × ParamValue)
  enableCrossPartitionQuery : Bool
  deriving DecidableEq, Repr

/-- One call issued to the external Cosmos client, recorded with the
arguments the adapter passes. -/
inductive StoreCall where
  | createDatabase : String → DatabaseProperties → StoreCall
  | createContainer : String → Option Value → IndexingPolicy →
      Option VectorEmbeddingPolicy → ContainerProperties → StoreCall
  | upsertItem : DocEntry → StoreCall
  | queryItems : CosmosQuery → StoreCall
  deriving DecidableEq, Repr

/-- Modelled from the spec: the retrieval framework's node type
(llama-index-core, not under src/) at the granularity the adapter uses — an
id, a populated embedding vector (the spec requires embeddings to be
populated by an upstream step), raw textual content, and flat metadata. -/
structure BaseNode where
  node_id : String
  embedding : List Value
  text : String
  metadata : List (String × Value)
  deriving DecidableEq, Repr

/-- Modelled from the spec: the only metadata-decoration mode the adapter
uses is `NONE` (decoration disabled, raw content only). -/
inductive MetadataMode where
  | NONE
  deriving DecidableEq, Repr

/-- Modelled from the spec: with decoration mode `NONE`, `get_content`
returns the node's raw textual content. -/
def BaseNode.get_content (node : BaseNode) (_mode : MetadataMode) : String :=
  node.text

/-- Modelled from the spec: `get_embedding` returns the node's embedding
vector, which the spec requires to be already populated. -/
def BaseNode.get_embedding (node : BaseNode) : List Value :=
  node.embedding

/-- Modelled from the spec: `set_content` overwrites the node's content. -/
def BaseNode.set_content (node : BaseNode) (t : String) : BaseNode :=
  { node with text := t }

/-- Modelled from the spec: `node_to_metadata_dict` from llama-index-core
(not under src/) serializes a node's metadata into a flat, scalar-safe
metadata blob; with `remove_text` set, the text itself is excluded from the
blob. The adapter always calls it with `remove_text := true` and the model's
metadata is already flat. -/
def node_to_metadata_dict (node : BaseNode) (remove_text : Bool) :
    List (String × Value) :=
  if remove_text then node.metadata
  else ("text", Value.str node.text) :: node.metadata

/-- Modelled from the spec: `metadata_dict_to_node` from llama-index-core
(not under src/) reconstructs a node from the stored metadata blob; the
content is re-attached separately by the caller (§4: "reconstructs a node
from its stored metadata blob, overwrites the node's content with the row's
stored text"). -/
def metadata_dict_to_node (d : List (String × Value)) : BaseNode :=
  { node_id := "", embedding := [], text := "", metadata := d }

/-- The adapter's configuration fields, as assigned by `__init__`. -/
structure AdapterState where
  database_name : String
  container_name : String
  vector_embedding_policy : Option VectorEmbeddingPolicy
  indexing_policy : IndexingPolicy
  cosmos_container_properties : Option ContainerProperties
  cosmos_database_properties : Option DatabaseProperties
  id_key : String
  text_key : String
  metadata_key : String
  embedding_key : String
  deriving DecidableEq, Repr

namespace AzureCosmosDBNoSqlVectorSearch

/-- The first validation of `__init__`: `indexing_policy["vectorIndexes"]`
is null or has length zero. -/
def vectorIndexesInvalid (indexing_policy : IndexingPolicy) : Bool :=
  match indexing_policy.vectorIndexes with
  | none => true
  | some l => l.length == 0

/-- The second validation of `__init__`: `vector_embedding_policy` is null
or its `vectorEmbeddings` list has length zero. -/
def vectorEmbeddingsInvalid
    (vector_embedding_policy : Option VectorEmbeddingPolicy) : Bool :=
  match vector_embedding_policy with
  | none => true
  | some p => p.vectorEmbeddings.length == 0

/-- The third validation of `__init__`: `cosmos_container_properties` is
null or its `partition_key` is null. -/
def partitionKeyInvalid
    (cosmos_container_properties : Option ContainerProperties) : Bool :=
  match cosmos_container_properties with
  | none => true
  | some c => c.partition_key.isNone

/-- `__init__`: validates the configuration when `create_container` is set,
assigns the configuration fields, derives `_embedding_key` from the first
`vectorEmbeddings` entry's path with its first character dropped (Python
`path[1:]`), then issues `create_database_if_not_exists` followed by
`create_container_if_not_exists`. Returns the trace of issued store calls
and either the constructed state or the raised error. -/
def init (vector_embedding_policy : Option VectorEmbeddingPolicy)
    (indexing_policy : IndexingPolicy)
    (cosmos_container_properties : Option ContainerProperties)
    (cosmos_database_properties : Option DatabaseProperties)
    (database_name container_name : String) (create_container : Bool)
    (id_key text_key metadata_key : String) :
    List StoreCall × Except PyError AdapterState :=
  if create_container && vectorIndexesInvalid indexing_policy then
    ([], .error (.valueError
      "vectorIndexes cannot be null or empty in the indexing_policy."))
  else if create_container && vectorEmbeddingsInvalid vector_embedding_policy then
    ([], .error (.valueError
      "vectorEmbeddings cannot be null or empty in the vector_embedding_policy."))
  else if create_container && partitionKeyInvalid cosmos_container_properties then
    ([], .error (.valueError
      "partition_key cannot be null or empty for a container."))
  else
    match vector_embedding_policy with
    | none =>
      ([], .error (.typeError "NoneType object is not subscriptable"))
    | some p =>
      match p.vectorEmbeddings with
      | [] => ([], .error (.indexError "list index out of range"))
      | e :: _ =>
        let ekey := e.path.drop 1
        match cosmos_database_properties with
        | none =>
          ([], .error (.attributeError "NoneType object has no attribute get"))
        | some d =>
          let dbCall := StoreCall.createDatabase database_name d
          match cosmos_container_properties with
          | none =>
            ([dbCall], .error (.typeError "NoneType object is not subscriptable"))
          | some c =>
            let contCall := StoreCall.createContainer container_name
              c.partition_key indexing_policy vector_embedding_policy c
            ([dbCall, contCall], .ok
              { database_name := database_name
                container_name := container_name
                vector_embedding_policy := vector_embedding_policy
                indexing_policy := indexing_policy
                cosmos_container_properties := cosmos_container_properties
                cosmos_database_properties := cosmos_database_properties
                id_key := id_key
                text_key := text_key
                metadata_key := metadata_key
                embedding_key := ekey })

/-- The document `add` builds for one node: a dict with the configured id,
embedding, text and metadata keys (the text read with decoration disabled,
with Python's `or ""` fallback; the metadata blob built with
`remove_text=True`). -/
def buildEntry (s : AdapterState) (node : BaseNode) : DocEntry :=
  let t := node.get_content MetadataMode.NONE
  [ (s.id_key, DocValue.str node.node_id),
    (s.embedding_key, DocValue.vec node.get_embedding),
    (s.text_key, DocValue.str (if t = "" then "" else t)),
    (s.metadata_key, DocValue.dict (node_to_metadata_dict node true)) ]

/-- The external store's upsert semantics on the container state: replace
the existing document with the same `id` field, else append. -/
def upsertDoc (store : List DocEntry) (d : DocEntry) : List DocEntry :=
  if store.any (fun e => e.lookup "id" == d.lookup "id") then
    store.map (fun e => if e.lookup "id" == d.lookup "id" then d else e)
  else store ++ [d]

/-- The upsert loop of `add`: one `upsert_item` call per document, in input
order, stopping at the first failing upsert (whose error propagates; `ok`
models which upserts the external store accepts). Returns the issued calls,
the resulting container state, and the raised error if any. -/
def upsertLoop (ok : DocEntry → Bool) (store : List DocEntry) :
    List DocEntry → List StoreCall × List DocEntry × Option PyError
  | [] => ([], store, none)
  | d :: ds =>
    if ok d then
      let r := upsertLoop ok (upsertDoc store d) ds
      (StoreCall.upsertItem d :: r.1, r.2)
    else ([StoreCall.upsertItem d], store, some (PyError.exception "upsert failed"))

/-- `add`: raises on an empty node list, otherwise builds one document per
node (collecting the node ids in the same pass), upserts the documents one
at a time in input order, and returns the ids. `ok` models the external
store's acceptance of each upsert and `store` the container's state. -/
def add (s : AdapterState) (ok : DocEntry → Bool) (store : List DocEntry)
    (nodes : List BaseNode) :
    List StoreCall × List DocEntry × Except PyError (List String) :=
  if nodes.isEmpty then
    ([], store, .error (.exception "Texts can not be null or empty"))
  else
    let data_to_insert := nodes.map (buildEntry s)
    let ids := nodes.map BaseNode.node_id
    let r := upsertLoop ok store data_to_insert
    (r.1, r.2.1,
      match r.2.2 with
      | none => .ok ids
      | some e => .error e)

/-- The query text of `_query`, verbatim from the source: the distance is
computed against the literal field `c.embedding`. -/
def cosmosQueryText : String :=
  "SELECT TOP @k c.id, c.embedding, c.text, c.metadata, VectorDistance(c.embedding,@embedding) AS SimilarityScore FROM c ORDER BY VectorDistance(c.embedding,@embedding)"

/-- The query text the spec describes, following the spec's words for
comparison with `cosmosQueryText`: the distance is computed and ordered
against the derived embedding field. -/
def specQueryText (embeddingKey : String) : String :=
  "SELECT TOP @k c.id, c." ++ embeddingKey ++
  ", c.text, c.metadata, VectorDistance(c." ++ embeddingKey ++
  ",@embedding) AS SimilarityScore FROM c ORDER BY VectorDistance(c." ++
  embeddingKey ++ ",@embedding)"

/-- The framework's query object at the granularity the adapter reads: the
query embedding and the requested top-k count. -/
structure VectorStoreQuery where
  query_embedding : List Value
  similarity_top_k : Int
  deriving DecidableEq, Repr

/-- The framework's query result: three parallel sequences. -/
structure VectorStoreQueryResult where
  nodes : List BaseNode
  similarities : List DocValue
  ids : List String
  deriving DecidableEq, Repr

/-- The parameterized query `_query` hands to `query_items`, with the two
bound parameters and cross-partition scanning enabled. -/
def buildQueryCall (q : VectorStoreQuery) : CosmosQuery :=
  { queryText := cosmosQueryText
    parameters := [("@k", ParamValue.int q.similarity_top_k),
                   ("@embedding", ParamValue.vector q.query_embedding)]
    enableCrossPartitionQuery := true }

/-- The per-row body of `_query`'s loop: reconstruct a node from the row's
metadata blob, overwrite its content with the row's text, and read the row's
id and similarity score. A missing key raises `KeyError`; a field of the
wrong shape raises. -/
def processRow (s : AdapterState) (row : DocEntry) :
    Except PyError (BaseNode × String × DocValue) :=
  match row.lookup s.metadata_key with
  | none => .error (.keyError s.metadata_key)
  | some (DocValue.dict md) =>
    let node := metadata_dict_to_node md
    match row.lookup s.text_key with
    | none => .error (.keyError s.text_key)
    | some (DocValue.str t) =>
      let node := node.set_content t
      match row.lookup s.id_key with
      | none => .error (.keyError s.id_key)
      | some (DocValue.str node_id) =>
        match row.lookup "SimilarityScore" with
        | none => .error (.keyError "SimilarityScore")
        | some score => .ok (node, node_id, score)
      | some _ => .error (.typeError "id field is not a string")
    | some _ => .error (.typeError "text field is not a string")
  | some _ => .error (.typeError "metadata field is not a dict")

/-- `_query`'s loop over the rows the store returned, collecting the three
parallel lists; the first raised error propagates. -/
def processRows (s : AdapterState) :
    List DocEntry → Except PyError (List (BaseNode × String × DocValue))
  | [] => .ok []
  | row :: rows => do
    let x ← processRow s row
    let xs ← processRows s rows
    .ok (x :: xs)

/-- `_query`: issues exactly one `query_items` call carrying the
parameterized query, then maps the returned rows (modelled by `rows`) into
the result's three parallel sequences. -/
def queryInner (s : AdapterState) (rows : List DocEntry)
    (q : VectorStoreQuery) :
    List StoreCall × Except PyError VectorStoreQueryResult :=
  ([StoreCall.queryItems (buildQueryCall q)],
    match processRows s rows with
    | .error e => .error e
    | .ok triples => .ok
      { nodes := triples.map (fun x => x.1)
        similarities := triples.map (fun x => x.2.2)
        ids := triples.map (fun x => x.2.1) })

/-- `query`: delegates to `_query`. -/
def query (s : AdapterState) (rows : List DocEntry) (q : VectorStoreQuery) :
    List StoreCall × Except PyError VectorStoreQueryResult :=
  queryInner s rows q

end AzureCosmosDBNoSqlVectorSearch

/-- Modelled from the spec: the external store's result row for one stored
document under the issued SELECT — it projects the literal fields `id`,
`embedding`, `text` and `metadata` (a field absent from the document is
absent from the row) and attaches the computed distance as
`SimilarityScore`. -/
def selectRow (doc : DocEntry) (score : DocValue) : DocEntry :=
  (["id", "embedding", "text", "metadata"].filterMap
    (fun k => (doc.lookup k).map (fun v => (k, v))))
  ++ [("SimilarityScore", score)]

/- Concrete configurations and nodes used to instantiate the theorems. -/

/-- A typical vector-embedding entry whose path is `/embedding`. -/
def sampleEmbeddingSpec : VectorEmbedding :=
  { path := "/embedding", dataType := "float32", distanceFunction := "cosine",
    dimensions := 3 }

/-- A valid vector-embedding policy with one entry at path `/embedding`. -/
def samplePolicy : VectorEmbeddingPolicy :=
  { vectorEmbeddings := [sampleEmbeddingSpec] }

/-- A vector-embedding policy whose first entry's path is `/vecField`. -/
def vecFieldPolicy : VectorEmbeddingPolicy :=
  { vectorEmbeddings :=
      [{ path := "/vecField", dataType := "float32",
         distanceFunction := "cosine", dimensions := 3 }] }

/-- A vector-embedding policy with an empty `vectorEmbeddings` list. -/
def emptyVecPolicy : VectorEmbeddingPolicy := { vectorEmbeddings := [] }

/-- A valid indexing policy with one vector index. -/
def sampleIndexingPolicy : IndexingPolicy :=
  { vectorIndexes := some [{ path := "/embedding", indexType := "quantizedFlat" }] }

/-- An indexing policy whose `vectorIndexes` value is null. -/
def nullIndexingPolicy : IndexingPolicy := { vectorIndexes := none }

/-- Database properties with every optional key absent. -/
def sampleDbProps : DatabaseProperties :=
  { offer_throughput := none, session_token := none, initial_headers := none,
    etag := none, match_condition := none }

/-- Container properties with a partition key on `/id` and every optional
key absent. -/
def sampleContainerProps : ContainerProperties :=
  { partition_key := some (Value.str "/id"), default_ttl := none,
    offer_throughput := none, unique_key_policy := none,
    conflict_resolution_policy := none, analytical_storage_ttl := none,
    computed_properties := none, etag := none, match_condition := none,
    session_token := none, initial_headers := none }

/-- The adapter state produced by a default construction (database and
container names, default keys, embedding key derived from `/embedding`). -/
def sampleState : AdapterState :=
  { database_name := "vectorSearchDB", container_name := "vectorSearchContainer",
    vector_embedding_policy := some samplePolicy,
    indexing_policy := sampleIndexingPolicy,
    cosmos_container_properties := some sampleContainerProps,
    cosmos_database_properties := some sampleDbProps,
    id_key := "id", text_key := "text", metadata_key := "metadata",
    embedding_key := "embedding" }

/-- A node with text `"hello"` and metadata `{"a": 1}`. -/
def sampleNode1 : BaseNode :=
  { node_id := "n1", embedding := [Value.num 1, Value.num 2], text := "hello",
    metadata := [("a", Value.num 1)] }

/-- A second node. -/
def sampleNode2 : BaseNode :=
  { node_id := "n2", embedding := [Value.num 3, Value.num 4], text := "world",
    metadata := [("b", Value.num 2)] }

/-- A third node. -/
def sampleNode3 : BaseNode :=
  { node_id := "n3", embedding := [Value.num 5, Value.num 6], text := "again",
    metadata := [] }

/-- A well-formed query result row as the store would return it. -/
def sampleRow : DocEntry :=
  [("id", DocValue.str "n1"),
   ("embedding", DocValue.vec [Value.num 1, Value.num 2]),
   ("text", DocValue.str "hello"),
   ("metadata", DocValue.dict [("a", Value.num 1)]),
   ("SimilarityScore", DocValue.val (Value.num 0))]

/-- A query object with a two-component embedding and top-k 1. -/
def sampleQueryObj : AzureCosmosDBNoSqlVectorSearch.VectorStoreQuery :=
  { query_embedding := [Value.num 1, Value.num 2], similarity_top_k := 1 }

/-- The query result the adapter produces for `sampleRow`. -/
def sampleResult : AzureCosmosDBNoSqlVectorSearch.VectorStoreQueryResult :=
  { nodes := [{ node_id := "", embedding := [], text := "hello",
                metadata := [("a", Value.num 1)] }],
    similarities := [DocValue.val (Value.num 0)],
    ids := ["n1"] }

open AzureCosmosDBNoSqlVectorSearch

/- Helper lemmas about the upsert loop and the container state. -/

/-- When every upsert is accepted, the loop issues one `upsert_item` call per
document in order, folds the documents into the container state, and raises
nothing. -/
theorem upsertLoop_all_ok (ok : DocEntry → Bool) :
    ∀ (docs store : List DocEntry),
      (∀ d ∈ docs, ok d = true) →
      upsertLoop ok store docs =
        (docs.map StoreCall.upsertItem, docs.foldl upsertDoc store, none) := by
  intro docs
  induction docs with
  | nil => intro store _; rfl
  | cons d ds ih =>
    intro store h
    have hd : ok d = true := h d (List.mem_cons_self d ds)
    simp only [upsertLoop, hd, if_true]
    rw [ih (upsertDoc store d) (fun x hx => h x (List.mem_cons_of_mem d hx))]
    simp

/-- When the upserts of `pre` are accepted and the next one fails, the loop
issues the calls for `pre` plus the failing attempt, leaves exactly `pre`
folded into the container state, and raises. -/
theorem upsertLoop_first_failure (ok : DocEntry → Bool) :
    ∀ (pre : List DocEntry) (dfail : DocEntry) (rest store : List DocEntry),
      (∀ d ∈ pre, ok d = true) → ok dfail = false →
      upsertLoop ok store (pre ++ dfail :: rest) =
        ((pre ++ [dfail]).map StoreCall.upsertItem,
         pre.foldl upsertDoc store,
         some (PyError.exception "upsert failed")) := by
  intro pre
  induction pre with
  | nil =>
    intro dfail rest store _ hf
    simp only [List.nil_append, upsertLoop, hf]
    simp
  | cons d ds ih =>
    intro dfail rest store h hf
    have hd : ok d = true := h d (List.mem_cons_self d ds)
    simp only [List.cons_append, upsertLoop, hd, if_true, List.append_eq]
    rw [ih dfail rest (upsertDoc store d) (fun x hx => h x (List.mem_cons_of_mem d hx)) hf]
    simp

/-- Upserting documents whose ids are pairwise distinct and absent from the
container appends them in order. -/
theorem foldl_upsertDoc_fresh :
    ∀ (l store : List DocEntry),
      (∀ d ∈ l, ∀ e ∈ store, e.lookup "id" ≠ d.lookup "id") →
      (l.map (fun d => d.lookup "id")).Nodup →
      l.foldl upsertDoc store = store ++ l := by
  intro l
  induction l with
  | nil => intro store _ _; simp
  | cons d ds ih =>
    intro store hfresh hnodup
    simp only [List.map_cons, List.nodup_cons] at hnodup
    have hany : store.any (fun e => e.lookup "id" == d.lookup "id") = false := by
      rw [List.any_eq_false]
      intro e he
      simp only [beq_iff_eq]
      exact hfresh d (List.mem_cons_self d ds) e he
    have hupsert : upsertDoc store d = store ++ [d] := by
      simp [upsertDoc, hany]
    simp only [List.foldl_cons, hupsert]
    rw [ih (store ++ [d]) ?fresh hnodup.2]
    · simp
    case fresh =>
      intro d' hd' e he
      rcases List.mem_append.mp he with h1 | h2
      · exact hfresh d' (List.mem_cons_of_mem d hd') e h1
      · have : e = d := by simpa using h2
        subst this
        intro hcontra
        exact hnodup.1 (hcontra ▸ List.mem_map_of_mem (fun x => x.lookup "id") hd')

/-- The document `add` builds stores the node's id first, under the
configured id key. -/
theorem buildEntry_lookup_id (s : AdapterState) (n : BaseNode)
    (hid : s.id_key = "id") :
    (buildEntry s n).lookup "id" = some (DocValue.str n.node_id) := by
  simp [buildEntry, List.lookup, hid]

/-- C4: calling `add` with an empty node list raises an input error and
issues no store call — no upsert is attempted and the container state is
unchanged. -/
theorem c4_add_empty_raises (s : AdapterState) (ok : DocEntry → Bool)
    (store : List DocEntry) :
    add s ok store [] =
      ([], store,
       Except.error (PyError.exception "Texts can not be null or empty")) := rfl

/-- C2: for every query, `query` issues exactly one parameterized store
query, whose text is the fixed top-k ascending-distance SELECT, binding
exactly the two parameters `@k` (the integer top-k count) and `@embedding`
(the query vector), with cross-partition scanning enabled. -/
theorem c2_query_call_contract (s : AdapterState) (rows : List DocEntry)
    (q : VectorStoreQuery) :
    (query s rows q).1 =
      [StoreCall.queryItems
        { queryText := cosmosQueryText
          parameters := [("@k", ParamValue.int q.similarity_top_k),
                         ("@embedding", ParamValue.vector q.query_embedding)]
          enableCrossPartitionQuery := true }] ∧
    cosmosQueryText =
      "SELECT TOP @k c.id, c.embedding, c.text, c.metadata, VectorDistance(c.embedding,@embedding) AS SimilarityScore FROM c ORDER BY VectorDistance(c.embedding,@embedding)" :=
  ⟨rfl, rfl⟩

/-- C7: for every non-empty list of nodes whose upserts the store accepts,
`add` returns the list of node ids in the same order as the input nodes. -/
theorem c7_add_returns_ids_in_order (s : AdapterState) (ok : DocEntry → Bool)
    (store : List DocEntry) (nodes : List BaseNode)
    (hne : nodes ≠ [])
    (hok : ∀ n ∈ nodes, ok (buildEntry s n) = true) :
    (add s ok store nodes).2.2 = Except.ok (nodes.map BaseNode.node_id) := by
  have hempty : nodes.isEmpty = false := by
    cases nodes with
    | nil => exact absurd rfl hne
    | cons a l => rfl
  have hok' : ∀ d ∈ nodes.map (buildEntry s), ok d = true := by
    intro d hd
    rcases List.mem_map.mp hd with ⟨n, hn, rfl⟩
    exact hok n hn
  simp [add, hempty, upsertLoop_all_ok ok (nodes.map (buildEntry s)) store hok']

/-- Witness for C7 at a concrete two-node input. -/
theorem c7_witness :
    ([sampleNode1, sampleNode2] ≠ ([] : List BaseNode)) ∧
    (add sampleState (fun _ => true) [] [sampleNode1, sampleNode2]).2.2 =
      Except.ok ["n1", "n2"] :=
  ⟨by decide,
   c7_add_returns_ids_in_order sampleState (fun _ => true) [] [sampleNode1, sampleNode2]
     (by decide) (by decide)⟩

/-- C3: for every construction call with `create_container` set in which the
vector-index list is missing or empty, the vector-embedding list is missing
or empty, or the container partition key is null, construction raises a
`ValueError` before any store call is issued (the call trace is empty, so no
partial state is created). -/
theorem c3_create_validation_fails_fast
    (vep : Option VectorEmbeddingPolicy) (ip : IndexingPolicy)
    (ccp : Option ContainerProperties) (cdp : Option DatabaseProperties)
    (dbn cn idk tk mk : String)
    (h : ip.vectorIndexes = none ∨ ip.vectorIndexes = some [] ∨
         vep = none ∨ (∃ p, vep = some p ∧ p.vectorEmbeddings = []) ∨
         ccp = none ∨ (∃ c, ccp = some c ∧ c.partition_key = none)) :
    (init vep ip ccp cdp dbn cn true idk tk mk).1 = [] ∧
    ∃ msg, (init vep ip ccp cdp dbn cn true idk tk mk).2 =
      Except.error (PyError.valueError msg) := by
  have hb : vectorIndexesInvalid ip = true ∨ vectorEmbeddingsInvalid vep = true ∨
      partitionKeyInvalid ccp = true := by
    rcases h with h | h | h | ⟨p, hp, hpe⟩ | h | ⟨c, hc, hck⟩
    · exact Or.inl (by simp [vectorIndexesInvalid, h])
    · exact Or.inl (by simp [vectorIndexesInvalid, h])
    · exact Or.inr (Or.inl (by simp [vectorEmbeddingsInvalid, h]))
    · exact Or.inr (Or.inl (by simp [vectorEmbeddingsInvalid, hp, hpe]))
    · exact Or.inr (Or.inr (by simp [partitionKeyInvalid, h]))
    · exact Or.inr (Or.inr (by simp [partitionKeyInvalid, hc, hck]))
  by_cases h1 : vectorIndexesInvalid ip = true
  · exact ⟨by simp [init, h1],
      "vectorIndexes cannot be null or empty in the indexing_policy.",
      by simp [init, h1]⟩
  · by_cases h2 : vectorEmbeddingsInvalid vep = true
    · exact ⟨by simp [init, h1, h2],
        "vectorEmbeddings cannot be null or empty in the vector_embedding_policy.",
        by simp [init, h1, h2]⟩
    · have h3 : partitionKeyInvalid ccp = true := by
        rcases hb with hb | hb | hb
        · exact absurd hb h1
        · exact absurd hb h2
        · exact hb
      exact ⟨by simp [init, h1, h2, h3],
        "partition_key cannot be null or empty for a container.",
        by simp [init, h1, h2, h3]⟩

/-- Witness for C3 at a concrete configuration with a null vector-index
list. -/
theorem c3_witness :
    (nullIndexingPolicy.vectorIndexes = none) ∧
    (init (some samplePolicy) nullIndexingPolicy (some sampleContainerProps)
      (some sampleDbProps) "vectorSearchDB" "vectorSearchContainer" true
      "id" "text" "metadata").1 = [] ∧
    ∃ msg, (init (some samplePolicy) nullIndexingPolicy (some sampleContainerProps)
      (some sampleDbProps) "vectorSearchDB" "vectorSearchContainer" true
      "id" "text" "metadata").2 = Except.error (PyError.valueError msg) :=
  ⟨rfl,
   c3_create_validation_fails_fast (some samplePolicy) nullIndexingPolicy
     (some sampleContainerProps) (some sampleDbProps) "vectorSearchDB"
     "vectorSearchContainer" "id" "text" "metadata" (Or.inl rfl)⟩

/-- C8: on a non-empty batch whose documents are upserted one at a time in
input order, if the upsert of the document after `pre` fails, exactly the
documents of `pre` have been persisted (no transactional rollback): the
issued calls are the upserts of `pre` plus the failing attempt, the
container holds exactly `pre`'s documents, and the error propagates. -/
theorem c8_add_no_rollback (s : AdapterState) (ok : DocEntry → Bool)
    (pre : List BaseNode) (nfail : BaseNode) (rest : List BaseNode)
    (hid : s.id_key = "id")
    (hnodup : (pre.map BaseNode.node_id).Nodup)
    (hok : ∀ n ∈ pre, ok (buildEntry s n) = true)
    (hfail : ok (buildEntry s nfail) = false) :
    add s ok [] (pre ++ nfail :: rest) =
      ((pre.map (buildEntry s) ++ [buildEntry s nfail]).map StoreCall.upsertItem,
       pre.map (buildEntry s),
       Except.error (PyError.exception "upsert failed")) := by
  have hempty : (pre ++ nfail :: rest).isEmpty = false := by
    cases pre <;> rfl
  have hmapapp : (pre ++ nfail :: rest).map (buildEntry s)
      = pre.map (buildEntry s) ++ buildEntry s nfail :: rest.map (buildEntry s) := by
    simp
  have hok' : ∀ d ∈ pre.map (buildEntry s), ok d = true := by
    intro d hd
    rcases List.mem_map.mp hd with ⟨n, hn, rfl⟩
    exact hok n hn
  have hloop := upsertLoop_first_failure ok (pre.map (buildEntry s))
      (buildEntry s nfail) (rest.map (buildEntry s)) [] hok' hfail
  have hlookups : (pre.map (buildEntry s)).map (fun d => d.lookup "id")
      = (pre.map BaseNode.node_id).map (fun x => some (DocValue.str x)) := by
    rw [List.map_map, List.map_map]
    apply List.map_congr_left
    intro n _
    simp [Function.comp]
    exact buildEntry_lookup_id s n hid
  have hfold : (pre.map (buildEntry s)).foldl upsertDoc [] = pre.map (buildEntry s) := by
    have hfresh : ∀ d ∈ pre.map (buildEntry s), ∀ e ∈ ([] : List DocEntry),
        e.lookup "id" ≠ d.lookup "id" := by
      intro d _ e he
      cases he
    have hnd : ((pre.map (buildEntry s)).map (fun d => d.lookup "id")).Nodup := by
      rw [hlookups]
      exact hnodup.map (fun a b hab => by simpa using hab)
    simpa using foldl_upsertDoc_fresh (pre.map (buildEntry s)) [] hfresh hnd
  simp [add, hempty, hmapapp, hloop, hfold]

/-- Witness for C8: three nodes, the store rejecting the second; exactly the
first node's document is persisted. -/
theorem c8_witness :
    (sampleState.id_key = "id") ∧
    (([sampleNode1].map BaseNode.node_id).Nodup) ∧
    add sampleState (fun d => d.lookup "id" != some (DocValue.str "n2")) []
      ([sampleNode1] ++ sampleNode2 :: [sampleNode3]) =
      (([sampleNode1].map (buildEntry sampleState)
          ++ [buildEntry sampleState sampleNode2]).map StoreCall.upsertItem,
       [sampleNode1].map (buildEntry sampleState),
       Except.error (PyError.exception "upsert failed")) :=
  ⟨rfl, by decide,
   c8_add_no_rollback sampleState
     (fun d => d.lookup "id" != some (DocValue.str "n2"))
     [sampleNode1] sampleNode2 [sampleNode3] rfl (by decide) (by decide) (by decide)⟩

/-- C9: whenever the store call behind `query` returns normally and the rows
parse, the result's three sequences (nodes, ids, similarities) have equal
length — they are maps over the same list of processed rows. -/
theorem c9_query_parallel_lengths (s : AdapterState) (rows : List DocEntry)
    (q : VectorStoreQuery) (res : VectorStoreQueryResult)
    (h : (query s rows q).2 = Except.ok res) :
    res.nodes.length = res.ids.length ∧
    res.ids.length = res.similarities.length := by
  unfold query queryInner at h
  cases hp : processRows s rows with
  | error e =>
    rw [hp] at h
    simp at h
  | ok triples =>
    rw [hp] at h
    simp only [Except.ok.injEq] at h
    subst h
    simp

/-- Witness for C9 at a concrete one-row result. -/
theorem c9_witness :
    (query sampleState [sampleRow] sampleQueryObj).2 = Except.ok sampleResult ∧
    (sampleResult.nodes.length = sampleResult.ids.length ∧
     sampleResult.ids.length = sampleResult.similarities.length) :=
  ⟨rfl, c9_query_parallel_lengths sampleState [sampleRow] sampleQueryObj sampleResult rfl⟩

/-- C6: round-trip under the default keys — for a node with text `"hello"`
and metadata `{"a": 1}`, the stored document's metadata blob is exactly
`{"a": 1}` (the text is excluded on write), and processing the store's row
for that document yields a node whose content is `"hello"` and whose
reconstructed metadata is `{"a": 1}` (the text is re-attached on read). -/
theorem c6_round_trip (s : AdapterState) (node : BaseNode) (score : DocValue)
    (hid : s.id_key = "id") (htext : s.text_key = "text")
    (hmeta : s.metadata_key = "metadata") (hemb : s.embedding_key = "embedding")
    (htxt : node.text = "hello") (hmd : node.metadata = [("a", Value.num 1)]) :
    (buildEntry s node).lookup s.metadata_key
      = some (DocValue.dict [("a", Value.num 1)]) ∧
    ∃ n i sc,
      processRow s (selectRow (buildEntry s node) score) = Except.ok (n, i, sc) ∧
      n.text = "hello" ∧ n.metadata = [("a", Value.num 1)] := by
  obtain ⟨nid, emb, txt, md⟩ := node
  dsimp only at htxt hmd
  subst htxt
  subst hmd
  constructor
  · simp only [buildEntry, hid, htext, hmeta, hemb]
    rfl
  · refine ⟨{ node_id := "", embedding := [], text := "hello",
              metadata := [("a", Value.num 1)] }, nid, score, ?_, rfl, rfl⟩
    simp only [buildEntry, selectRow, processRow, hid, htext, hmeta, hemb]
    rfl

/-- Witness for C6 at the concrete default configuration and node. -/
theorem c6_witness :
    (buildEntry sampleState sampleNode1).lookup sampleState.metadata_key
      = some (DocValue.dict [("a", Value.num 1)]) ∧
    ∃ n i sc,
      processRow sampleState
        (selectRow (buildEntry sampleState sampleNode1) (DocValue.val (Value.num 0)))
        = Except.ok (n, i, sc) ∧
      n.text = "hello" ∧ n.metadata = [("a", Value.num 1)] :=
  c6_round_trip sampleState sampleNode1 (DocValue.val (Value.num 0))
    rfl rfl rfl rfl rfl rfl

/-- C1 (code bug): for a configuration whose first vector-embedding path is
`/vecField`, construction derives and stores the embedding under the field
`vecField`, but the issued query text computes and orders `VectorDistance`
against the literal field `embedding` — not the derived field the claim (and
the spec) require; the query text matches the spec's shape only for the
derived key `embedding`. -/
theorem c1_query_distance_field_hardcoded :
    ∃ s : AdapterState,
      (init (some vecFieldPolicy) sampleIndexingPolicy (some sampleContainerProps)
        (some sampleDbProps) "vectorSearchDB" "vectorSearchContainer" true
        "id" "text" "metadata").2 = Except.ok s ∧
      s.embedding_key = "vecField" ∧
      (buildEntry s sampleNode1).lookup "vecField"
        = some (DocValue.vec sampleNode1.embedding) ∧
      cosmosQueryText ≠ specQueryText s.embedding_key ∧
      cosmosQueryText = specQueryText "embedding" :=
  ⟨_, rfl, by decide, by decide, by decide, by decide⟩

/-- C5 (code bug): with every required parameter valid (the three
validations pass) but the optional `cosmos_database_properties` omitted
(`none`), construction raises an `AttributeError` (Python's `None.get`)
instead of succeeding, before any store call is issued. -/
theorem c5_database_properties_none_raises :
    vectorIndexesInvalid sampleIndexingPolicy = false ∧
    vectorEmbeddingsInvalid (some samplePolicy) = false ∧
    partitionKeyInvalid (some sampleContainerProps) = false ∧
    init (some samplePolicy) sampleIndexingPolicy (some sampleContainerProps)
      none "vectorSearchDB" "vectorSearchContainer" true "id" "text" "metadata"
      = ([], Except.error (PyError.attributeError
          "NoneType object has no attribute get")) :=
  ⟨rfl, rfl, rfl, rfl⟩

/-- C10: with `create_container` false, construction skips the three
validations but still derives the embedding key from the first
vector-embedding entry and still issues the create-database and
create-container calls (in that order); with a null policy or an empty
vector-embedding list, the derivation itself raises, so construction still
fails, before any store call. -/
theorem c10_create_container_false :
    (∀ (p : VectorEmbeddingPolicy) (e : VectorEmbedding)
       (es : List VectorEmbedding) (ip : IndexingPolicy)
       (c : ContainerProperties) (d : DatabaseProperties)
       (dbn cn idk tk mk : String),
       p.vectorEmbeddings = e :: es →
       init (some p) ip (some c) (some d) dbn cn false idk tk mk =
         ([StoreCall.createDatabase dbn d,
           StoreCall.createContainer cn c.partition_key ip (some p) c],
          Except.ok
            { database_name := dbn, container_name := cn,
              vector_embedding_policy := some p, indexing_policy := ip,
              cosmos_container_properties := some c,
              cosmos_database_properties := some d,
              id_key := idk, text_key := tk, metadata_key := mk,
              embedding_key := e.path.drop 1 })) ∧
    (∀ (ip : IndexingPolicy) (ccp : Option ContainerProperties)
       (cdp : Option DatabaseProperties) (dbn cn idk tk mk : String),
       (init none ip ccp cdp dbn cn false idk tk mk).1 = [] ∧
       ∃ err, (init none ip ccp cdp dbn cn false idk tk mk).2 = Except.error err) ∧
    (∀ (p : VectorEmbeddingPolicy) (ip : IndexingPolicy)
       (ccp : Option ContainerProperties) (cdp : Option DatabaseProperties)
       (dbn cn idk tk mk : String),
       p.vectorEmbeddings = [] →
       (init (some p) ip ccp cdp dbn cn false idk tk mk).1 = [] ∧
       ∃ err, (init (some p) ip ccp cdp dbn cn false idk tk mk).2 = Except.error err) := by
  refine ⟨?_, ?_, ?_⟩
  · intro p e es ip c d dbn cn idk tk mk h
    simp [init, h]
  · intro ip ccp cdp dbn cn idk tk mk
    exact ⟨by simp [init],
      PyError.typeError "NoneType object is not subscriptable", by simp [init]⟩
  · intro p ip ccp cdp dbn cn idk tk mk h
    exact ⟨by simp [init, h],
      PyError.indexError "list index out of range", by simp [init, h]⟩

/-- Witness for C10: a concrete valid policy still provisions with
`create_container` false, and a concrete empty policy still fails with no
store call. -/
theorem c10_witness :
    samplePolicy.vectorEmbeddings = sampleEmbeddingSpec :: [] ∧
    init (some samplePolicy) sampleIndexingPolicy (some sampleContainerProps)
      (some sampleDbProps) "db" "c" false "id" "text" "metadata" =
      ([StoreCall.createDatabase "db" sampleDbProps,
        StoreCall.createContainer "c" (some (Value.str "/id"))
          sampleIndexingPolicy (some samplePolicy) sampleContainerProps],
       Except.ok
         { database_name := "db", container_name := "c",
           vector_embedding_policy := some samplePolicy,
           indexing_policy := sampleIndexingPolicy,
           cosmos_container_properties := some sampleContainerProps,
           cosmos_database_properties := some sampleDbProps,
           id_key := "id", text_key := "text", metadata_key := "metadata",
           embedding_key := "embedding" }) ∧
    emptyVecPolicy.vectorEmbeddings = [] ∧
    (init (some emptyVecPolicy) sampleIndexingPolicy (some sampleContainerProps)
      (some sampleDbProps) "db" "c" false "id" "text" "metadata").1 = [] :=
  ⟨rfl,
   c10_create_container_false.1 samplePolicy sampleEmbeddingSpec []
     sampleIndexingPolicy sampleContainerProps sampleDbProps
     "db" "c" "id" "text" "metadata" rfl,
   rfl,
   (c10_create_container_false.2.2 emptyVecPolicy sampleIndexingPolicy
     (some sampleContainerProps) (some sampleDbProps)
     "db" "c" "id" "text" "metadata" rfl).1⟩
